import Mathlib

/-!
Verification of the ESP32 BME280 temperature monitor core:
the BME280 driver (`src/main/bme280.c`) and the SMS alert evaluator
(`src/main/alert_eval.c`), shallowly embedded in Lean 4.

Modelling conventions:
* C `double` arithmetic is embedded as exact rational (`ℚ`) arithmetic;
  the casts to integer types truncate toward zero as in C.
* `esp_err_t` is embedded as `Int` with `ESP_OK = 0`.
* The notification transport `sms_send_alert` is an abstract parameter
  (a function from the message sent to the returned error code).
* The two one-shot esp_timer cooldown timers are modelled by explicit
  `running` flags in the evaluator state; timer expiry is a step of the
  transition system that clears the flag and the corresponding gate.
-/

namespace ESP32Monitor

/-- `esp_err_t ESP_OK` (= 0). -/
def ESP_OK : Int := 0

/-! ## Alert evaluator (`src/main/alert_eval.c`) -/

/-- `THIRTY_MIN_US`: 30 minutes in microseconds. -/
def THIRTY_MIN_US : ℕ := 30 * 60 * 1000000

/-- `ONE_HOUR_US`: 60 minutes in microseconds. -/
def ONE_HOUR_US : ℕ := 60 * 60 * 1000000

/-- `ALERT_LOW_C` = 15.0 (the `Cold` threshold). -/
def ALERT_LOW_C : ℚ := 15

/-- `WARN_LOW_C` = 16.5 (the `Cold_Warn` threshold). -/
def WARN_LOW_C : ℚ := 33 / 2

/-- `WARN_HIGH_C` = 28.5 (the `Hot_Warn` threshold). -/
def WARN_HIGH_C : ℚ := 57 / 2

/-- `ALERT_HIGH_C` = 30.0 (the `Hot` threshold). -/
def ALERT_HIGH_C : ℚ := 30

/-- The four messages `sms_eval_alert` can format and send. -/
inductive AlertMsg where
  | coldWarning
  | coldAlert
  | hotWarning
  | hotAlert
deriving DecidableEq, Repr

/-- Which of the two one-shot cooldown timers. A is the 30-minute
warning timer, B the 60-minute alert timer. -/
inductive TimerId where
  | A
  | B
deriving DecidableEq, Repr

/-- State of `alert_eval.c`: the two cooldown flags `a_tick` / `b_tick`
plus, for each esp_timer, whether it is currently counting down. -/
structure AlertState where
  a_tick : Bool
  b_tick : Bool
  a_running : Bool
  b_running : Bool
deriving DecidableEq, Repr

/-- State at startup: both gates open, both timers inactive. -/
def initState : AlertState :=
  { a_tick := false, b_tick := false, a_running := false, b_running := false }

/-- Observable outcome of one `sms_eval_alert` call: the new evaluator
state, the messages passed to `sms_send_alert` (in order), the timers
armed by `esp_timer_start_once` with their durations, whether any
`esp_timer_start_once` call targeted a timer that was already counting
down, and the returned `esp_err_t`. -/
structure EvalResult where
  state : AlertState
  sent : List AlertMsg
  armed : List (TimerId × ℕ)
  startedWhileRunning : Bool
  ret : Int
deriving DecidableEq, Repr

/-- `sms_eval_alert(T_C)` from `src/main/alert_eval.c`, lines 106-154.
`send` abstracts the `sms_send_alert` transport (its value is the
`esp_err_t` the transport returns for the given message). The four
guarded branches appear in source order and the first one whose
condition holds returns. -/
def sms_eval_alert (send : AlertMsg → Int) (T_C : ℚ) (s : AlertState) :
    EvalResult :=
  let Cold := ALERT_LOW_C
  let Cold_Warn := WARN_LOW_C
  let Hot_Warn := WARN_HIGH_C
  let Hot := ALERT_HIGH_C
  if s.a_tick = false ∧ T_C > Cold ∧ T_C ≤ Cold_Warn then
    { state := { s with a_tick := true, a_running := true },
      sent := [.coldWarning],
      armed := [(.A, THIRTY_MIN_US)],
      startedWhileRunning := s.a_running,
      ret := send .coldWarning }
  else if s.b_tick = false ∧ T_C ≤ Cold then
    { state := { s with b_tick := true, b_running := true },
      sent := [.coldAlert],
      armed := [(.B, ONE_HOUR_US)],
      startedWhileRunning := s.b_running,
      ret := send .coldAlert }
  else if s.a_tick = false ∧ T_C ≥ Hot_Warn ∧ T_C < Hot then
    { state := { s with a_tick := true, a_running := true },
      sent := [.hotWarning],
      armed := [(.A, THIRTY_MIN_US)],
      startedWhileRunning := s.a_running,
      ret := send .hotWarning }
  else if s.b_tick = false ∧ T_C ≥ Hot then
    { state := { s with b_tick := true, b_running := true },
      sent := [.hotAlert],
      armed := [(.B, ONE_HOUR_US)],
      startedWhileRunning := s.b_running,
      ret := send .hotAlert }
  else
    { state := s, sent := [], armed := [],
      startedWhileRunning := false, ret := ESP_OK }

/-- `callback_timer_A` (line 50): timer A expiry clears `a_tick`;
the one-shot timer stops counting down. Expiry of a timer that is not
running cannot occur and is modelled as a no-op. -/
def callback_timer_A (s : AlertState) : AlertState :=
  if s.a_running then { s with a_tick := false, a_running := false } else s

/-- `callback_timer_B` (line 59): timer B expiry clears `b_tick`. -/
def callback_timer_B (s : AlertState) : AlertState :=
  if s.b_running then { s with b_tick := false, b_running := false } else s

/-- One event of the evaluator/timer transition system: an evaluation
call or the expiry of one of the two cooldown timers. -/
inductive SysEvent where
  | evalCall (send : AlertMsg → Int) (T_C : ℚ)
  | timerAExpire
  | timerBExpire

/-- One step of the transition system. -/
def stepEvent (s : AlertState) : SysEvent → AlertState
  | .evalCall send T_C => (sms_eval_alert send T_C s).state
  | .timerAExpire => callback_timer_A s
  | .timerBExpire => callback_timer_B s

/-- The state reached from `initState` after a sequence of events. -/
def runEvents (evs : List SysEvent) : AlertState :=
  evs.foldl stepEvent initState

/-- The gate/timer coupling invariant: a gate is closed exactly when
its timer is counting down. -/
def GateInv (s : AlertState) : Prop :=
  s.a_tick = s.a_running ∧ s.b_tick = s.b_running

/-! ## BME280 driver (`src/main/bme280.c`) -/

/-- C cast of a `double` to a signed integer type: truncation toward
zero (fractional part discarded). -/
def truncToInt (q : ℚ) : ℤ :=
  if 0 ≤ q then ⌊q⌋ else ⌈q⌉

/-- Reinterpretation of a 16-bit pattern as `int16_t`
(two's complement). -/
def toInt16 (v : ℕ) : ℤ :=
  if v % 65536 < 32768 then (v % 65536 : ℤ) else (v % 65536 : ℤ) - 65536

/-- `sign_extend_12` from `bme280.c` lines 228-237: if bit 11 of the
packed 12-bit value is set, OR in the top four bits, then reinterpret
the 16-bit pattern as `int16_t`. -/
def sign_extend_12 (v : ℕ) : ℤ :=
  if v &&& 0x0800 ≠ 0 then toInt16 (v ||| 0xF000) else toInt16 v

/-- `bme280_calib_t`: the calibration coefficient set. All fields are
carried as `ℤ`; their C types fix their ranges at parse time
(`dig_T1`, `dig_P1` are `uint16_t`; `dig_H1`, `dig_H3` are `uint8_t`;
`dig_H6` is `int8_t`; the rest are `int16_t`). -/
structure bme280_calib_t where
  dig_T1 : ℤ
  dig_T2 : ℤ
  dig_T3 : ℤ
  dig_P1 : ℤ
  dig_P2 : ℤ
  dig_P3 : ℤ
  dig_P4 : ℤ
  dig_P5 : ℤ
  dig_P6 : ℤ
  dig_P7 : ℤ
  dig_P8 : ℤ
  dig_P9 : ℤ
  dig_H1 : ℤ
  dig_H2 : ℤ
  dig_H3 : ℤ
  dig_H4 : ℤ
  dig_H5 : ℤ
  dig_H6 : ℤ
deriving DecidableEq, Repr

/-- Little-endian `uint16_t` assembly `(hi << 8) | lo` as in the
calibration parse. -/
def u16le (lo hi : ℕ) : ℕ := (hi <<< 8) ||| lo

/-- Reinterpretation of an 8-bit pattern as `int8_t`. -/
def toInt8 (v : ℕ) : ℤ :=
  if v % 256 < 128 then (v % 256 : ℤ) else (v % 256 : ℤ) - 256

/-- `bme280_read_calibration` (lines 166-216) with the two register
blocks already read: `buf1` is the 26-byte block from 0x88, `buf2`
the 7-byte block from 0xE1. Each entry is one register byte
(`uint8_t`, so < 256). -/
def bme280_read_calibration (buf1 : Fin 26 → ℕ) (buf2 : Fin 7 → ℕ) :
    bme280_calib_t :=
  let raw_h4 := ((buf2 3) <<< 4) ||| ((buf2 4) &&& 0x0F)
  let raw_h5 := ((buf2 5) <<< 4) ||| ((buf2 4) >>> 4)
  { dig_T1 := (u16le (buf1 0) (buf1 1) : ℤ)
    dig_T2 := toInt16 (u16le (buf1 2) (buf1 3))
    dig_T3 := toInt16 (u16le (buf1 4) (buf1 5))
    dig_P1 := (u16le (buf1 6) (buf1 7) : ℤ)
    dig_P2 := toInt16 (u16le (buf1 8) (buf1 9))
    dig_P3 := toInt16 (u16le (buf1 10) (buf1 11))
    dig_P4 := toInt16 (u16le (buf1 12) (buf1 13))
    dig_P5 := toInt16 (u16le (buf1 14) (buf1 15))
    dig_P6 := toInt16 (u16le (buf1 16) (buf1 17))
    dig_P7 := toInt16 (u16le (buf1 18) (buf1 19))
    dig_P8 := toInt16 (u16le (buf1 20) (buf1 21))
    dig_P9 := toInt16 (u16le (buf1 22) (buf1 23))
    dig_H1 := (buf1 25 : ℤ)
    dig_H2 := toInt16 (u16le (buf2 0) (buf2 1))
    dig_H3 := (buf2 2 : ℤ)
    dig_H4 := sign_extend_12 raw_h4
    dig_H5 := sign_extend_12 raw_h5
    dig_H6 := toInt8 (buf2 6) }

/-- The sum `var1 + var2` computed inside `BME280_compensate_T_double`
(lines 300-312): the two polynomial terms over `dig_T1..T3`. -/
def tempTerms (c : bme280_calib_t) (adc_T : ℤ) : ℚ :=
  let var1 : ℚ :=
    ((adc_T : ℚ) / 16384 - (c.dig_T1 : ℚ) / 1024) * (c.dig_T2 : ℚ)
  let var2 : ℚ :=
    (((adc_T : ℚ) / 131072 - (c.dig_T1 : ℚ) / 8192) *
      ((adc_T : ℚ) / 131072 - (c.dig_T1 : ℚ) / 8192)) * (c.dig_T3 : ℚ)
  var1 + var2

/-- `BME280_compensate_T_double` (lines 300-312). Returns the
temperature in degrees Celsius and the `t_fine` value stored by the
assignment `t_fine = (BME280_S32_t)(var1 + var2)`. -/
def BME280_compensate_T_double (c : bme280_calib_t) (adc_T : ℤ) :
    ℚ × ℤ :=
  (tempTerms c adc_T / 5120, truncToInt (tempTerms c adc_T))

/-- The final value of `var1` in `BME280_compensate_P_double`
(lines 327-333) — the divisor tested against zero. -/
def pressureDenom (c : bme280_calib_t) (t_fine : ℤ) : ℚ :=
  let var1 : ℚ := (t_fine : ℚ) / 2 - 64000
  let var1b : ℚ :=
    ((c.dig_P3 : ℚ) * var1 * var1 / 524288 + (c.dig_P2 : ℚ) * var1) /
      524288
  (1 + var1b / 32768) * (c.dig_P1 : ℚ)

/-- `BME280_compensate_P_double` (lines 323-345), with the `t_fine`
global passed explicitly. -/
def BME280_compensate_P_double (c : bme280_calib_t) (t_fine : ℤ)
    (adc_P : ℤ) : ℚ :=
  let var1 : ℚ := (t_fine : ℚ) / 2 - 64000
  let var2 : ℚ := var1 * var1 * (c.dig_P6 : ℚ) / 32768
  let var2 : ℚ := var2 + var1 * (c.dig_P5 : ℚ) * 2
  let var2 : ℚ := var2 / 4 + (c.dig_P4 : ℚ) * 65536
  let var1 : ℚ :=
    ((c.dig_P3 : ℚ) * var1 * var1 / 524288 + (c.dig_P2 : ℚ) * var1) /
      524288
  let var1 : ℚ := (1 + var1 / 32768) * (c.dig_P1 : ℚ)
  if var1 = 0 then 0
  else
    let p : ℚ := 1048576 - (adc_P : ℚ)
    let p : ℚ := (p - var2 / 4096) * 6250 / var1
    let var1 : ℚ := (c.dig_P9 : ℚ) * p * p / 2147483648
    let var2 : ℚ := p * (c.dig_P8 : ℚ) / 32768
    p + (var1 + var2 + (c.dig_P7 : ℚ)) / 16

/-- `bme280_compensate_H_double` (lines 356-373), with the `t_fine`
global passed explicitly. -/
def bme280_compensate_H_double (c : bme280_calib_t) (t_fine : ℤ)
    (adc_H : ℤ) : ℚ :=
  let var_H : ℚ := (t_fine : ℚ) - 76800
  let var_H : ℚ :=
    ((adc_H : ℚ) -
        ((c.dig_H4 : ℚ) * 64 + (c.dig_H5 : ℚ) / 16384 * var_H)) *
      ((c.dig_H2 : ℚ) / 65536 *
        (1 + (c.dig_H6 : ℚ) / 67108864 * var_H *
          (1 + (c.dig_H3 : ℚ) / 67108864 * var_H)))
  let var_H : ℚ := var_H * (1 - (c.dig_H1 : ℚ) * var_H / 524288)
  if var_H > 100 then 100
  else if var_H < 0 then 0
  else var_H

/-! ## Calibration-ready poll in `bme280_init` (lines 144-151)

The loop `while (1) { read status; if ((status & 0x01) == 0) break; }`
is embedded fuel-indexed: `status i` is the value the `i`-th status
read returns, and `bme280_wait_calib status fuel` is `some i` when the
loop breaks at iteration `i` within `fuel` iterations and `none` when
`fuel` iterations did not suffice. The source imposes no iteration
cap, so its behaviour is the supremum over all fuels. -/

/-- The poll loop from iteration `i` with `fuel` iterations left. -/
def pollLoop (status : ℕ → ℕ) : ℕ → ℕ → Option ℕ
  | 0, _ => none
  | fuel + 1, i =>
      if status i &&& 0x01 = 0 then some i else pollLoop status fuel (i + 1)

/-- The calibration-ready wait of `bme280_init`, starting at read 0. -/
def bme280_wait_calib (status : ℕ → ℕ) (fuel : ℕ) : Option ℕ :=
  pollLoop status fuel 0

/-! ## I2C burst read (`i2c_read_bytes`, lines 89-112)

The command list built by `i2c_read_bytes` is embedded as a list of
abstract link operations. `i2c_master_read(cmd, buffer, len-1,
I2C_MASTER_ACK)` queues `len-1` single-byte reads into successive
buffer slots, each acknowledged; `i2c_master_read_byte(cmd,
&buffer[len-1], I2C_MASTER_NACK)` queues one not-acknowledged read.
Destination indices are carried as `ℤ` because the C expression
`&buffer[len - 1]` is pointer arithmetic: for `len = 0` it addresses
the element *before* the buffer (index -1). -/

/-- One queued I2C link operation. For `readByte`, `dst` is the buffer
index written and `ack` tells whether the master acknowledges the
byte. -/
inductive I2COp where
  | start
  | writeByte (b : ℕ) (expectAck : Bool)
  | readByte (dst : ℤ) (ack : Bool)
  | stop
deriving DecidableEq, Repr

/-- `I2C_MASTER_WRITE` = 0. -/
def I2C_MASTER_WRITE : ℕ := 0

/-- `I2C_MASTER_READ` = 1. -/
def I2C_MASTER_READ : ℕ := 1

/-- The command list queued by `i2c_read_bytes(device_addr,
register_addr, buffer, len)`. -/
def i2c_read_bytes_ops (device_addr register_addr : ℕ) (len : ℕ) :
    List I2COp :=
  [I2COp.start,
   I2COp.writeByte ((device_addr <<< 1) ||| I2C_MASTER_WRITE) true,
   I2COp.writeByte register_addr true,
   I2COp.start,
   I2COp.writeByte ((device_addr <<< 1) ||| I2C_MASTER_READ) true] ++
  (if len > 1 then
      (List.range (len - 1)).map (fun i => I2COp.readByte (i : ℤ) true)
    else []) ++
  [I2COp.readByte ((len : ℤ) - 1) false, I2COp.stop]

/-- The read operations of a command list, as `(dst, ack)` pairs in
queue order. -/
def readOps (ops : List I2COp) : List (ℤ × Bool) :=
  ops.filterMap fun op =>
    match op with
    | I2COp.readByte dst ack => some (dst, ack)
    | _ => none

/-- The final value of `var2` in `BME280_compensate_P_double`
(lines 328-330). -/
def pressureVar2 (c : bme280_calib_t) (t_fine : ℤ) : ℚ :=
  let var1 : ℚ := (t_fine : ℚ) / 2 - 64000
  (var1 * var1 * (c.dig_P6 : ℚ) / 32768 + var1 * (c.dig_P5 : ℚ) * 2) / 4 +
    (c.dig_P4 : ℚ) * 65536

/-! ## Theorems -/

/-- A C integer truncation differs from the truncated rational by less
than one. -/
lemma abs_sub_truncToInt (q : ℚ) : |q - (truncToInt q : ℚ)| < 1 := by
  unfold truncToInt
  split_ifs with h
  · rw [abs_of_nonneg (sub_nonneg.mpr (Int.floor_le q))]
    have := Int.sub_one_lt_floor q
    linarith
  · rw [abs_of_nonpos (sub_nonpos.mpr (Int.le_ceil q))]
    have := Int.ceil_lt_add_one q
    linarith

/-- C1: `sms_eval_alert` evaluates the four threshold conditions in the
fixed priority order cold-warning, cold-alert, hot-warning, hot-alert,
short-circuiting on the first whose condition (temperature window plus
open gate) holds; the firing branch sends exactly that one message,
arms the matching timer (30 min for warnings, 60 min for alerts) and
returns the transport result; when no condition holds the state is
unchanged, nothing is sent and `ESP_OK` is returned; at most one
notification is sent per call; at `T = Cold_Warn` with the warn-gate
open the cold-warning branch fires, and below `Cold` with the
alert-gate open the cold-alert branch fires. -/
theorem sms_eval_alert_priority_order (send : AlertMsg → Int) (T : ℚ)
    (s : AlertState) :
    (s.a_tick = false ∧ ALERT_LOW_C < T ∧ T ≤ WARN_LOW_C →
      (sms_eval_alert send T s).sent = [AlertMsg.coldWarning] ∧
      (sms_eval_alert send T s).armed = [(TimerId.A, THIRTY_MIN_US)] ∧
      (sms_eval_alert send T s).ret = send AlertMsg.coldWarning) ∧
    (¬(s.a_tick = false ∧ ALERT_LOW_C < T ∧ T ≤ WARN_LOW_C) →
      s.b_tick = false ∧ T ≤ ALERT_LOW_C →
      (sms_eval_alert send T s).sent = [AlertMsg.coldAlert] ∧
      (sms_eval_alert send T s).armed = [(TimerId.B, ONE_HOUR_US)] ∧
      (sms_eval_alert send T s).ret = send AlertMsg.coldAlert) ∧
    (¬(s.a_tick = false ∧ ALERT_LOW_C < T ∧ T ≤ WARN_LOW_C) →
      ¬(s.b_tick = false ∧ T ≤ ALERT_LOW_C) →
      s.a_tick = false ∧ WARN_HIGH_C ≤ T ∧ T < ALERT_HIGH_C →
      (sms_eval_alert send T s).sent = [AlertMsg.hotWarning] ∧
      (sms_eval_alert send T s).armed = [(TimerId.A, THIRTY_MIN_US)] ∧
      (sms_eval_alert send T s).ret = send AlertMsg.hotWarning) ∧
    (¬(s.a_tick = false ∧ ALERT_LOW_C < T ∧ T ≤ WARN_LOW_C) →
      ¬(s.b_tick = false ∧ T ≤ ALERT_LOW_C) →
      ¬(s.a_tick = false ∧ WARN_HIGH_C ≤ T ∧ T < ALERT_HIGH_C) →
      s.b_tick = false ∧ ALERT_HIGH_C ≤ T →
      (sms_eval_alert send T s).sent = [AlertMsg.hotAlert] ∧
      (sms_eval_alert send T s).armed = [(TimerId.B, ONE_HOUR_US)] ∧
      (sms_eval_alert send T s).ret = send AlertMsg.hotAlert) ∧
    (¬(s.a_tick = false ∧ ALERT_LOW_C < T ∧ T ≤ WARN_LOW_C) →
      ¬(s.b_tick = false ∧ T ≤ ALERT_LOW_C) →
      ¬(s.a_tick = false ∧ WARN_HIGH_C ≤ T ∧ T < ALERT_HIGH_C) →
      ¬(s.b_tick = false ∧ ALERT_HIGH_C ≤ T) →
      sms_eval_alert send T s =
        { state := s, sent := [], armed := [],
          startedWhileRunning := false, ret := ESP_OK }) ∧
    (sms_eval_alert send T s).sent.length ≤ 1 ∧
    (T = WARN_LOW_C → s.a_tick = false →
      (sms_eval_alert send T s).sent = [AlertMsg.coldWarning]) ∧
    (T < ALERT_LOW_C → s.b_tick = false →
      (sms_eval_alert send T s).sent = [AlertMsg.coldAlert]) := by
  refine ⟨?_, ?_, ?_, ?_, ?_, ?_, ?_, ?_⟩
  · intro h
    simp only [sms_eval_alert]
    rw [if_pos h]
    exact ⟨rfl, rfl, rfl⟩
  · intro h1 h2
    simp only [sms_eval_alert]
    rw [if_neg h1, if_pos h2]
    exact ⟨rfl, rfl, rfl⟩
  · intro h1 h2 h3
    simp only [sms_eval_alert]
    rw [if_neg h1, if_neg h2, if_pos h3]
    exact ⟨rfl, rfl, rfl⟩
  · intro h1 h2 h3 h4
    simp only [sms_eval_alert]
    rw [if_neg h1, if_neg h2, if_neg h3, if_pos h4]
    exact ⟨rfl, rfl, rfl⟩
  · intro h1 h2 h3 h4
    simp only [sms_eval_alert]
    rw [if_neg h1, if_neg h2, if_neg h3, if_neg h4]
  · simp only [sms_eval_alert]
    split_ifs <;> simp
  · intro hT ha
    simp only [sms_eval_alert]
    rw [if_pos]
    refine ⟨ha, ?_, le_of_eq hT⟩
    rw [hT]
    norm_num [ALERT_LOW_C, WARN_LOW_C]
  · intro hT hb
    simp only [sms_eval_alert]
    rw [if_neg, if_pos]
    · exact ⟨hb, le_of_lt hT⟩
    · rintro ⟨-, hgt, -⟩
      exact absurd hT (not_lt.mpr (le_of_lt hgt))

/-- C1 witness: at `T = 16.5 = Cold_Warn` from the initial state the
cold-warning fires. -/
theorem sms_eval_alert_priority_order_witness :
    (sms_eval_alert (fun _ => -1) (33 / 2) initState).sent =
      [AlertMsg.coldWarning] :=
  (sms_eval_alert_priority_order (fun _ => -1) (33 / 2)
    initState).2.2.2.2.2.2.1 rfl rfl

/-- C3: the new gate state, the armed timers and the sent messages do
not depend on what the transport returns (the gate closes and the
timer is armed before the send result matters); a firing branch sends
exactly once (no retry), returns the transport result unchanged, and
has closed the gate and armed the timer of its category. -/
theorem sms_eval_alert_send_failure_cooldown
    (send1 send2 : AlertMsg → Int) (T : ℚ) (s : AlertState) :
    ((sms_eval_alert send1 T s).state = (sms_eval_alert send2 T s).state ∧
     (sms_eval_alert send1 T s).armed = (sms_eval_alert send2 T s).armed ∧
     (sms_eval_alert send1 T s).sent = (sms_eval_alert send2 T s).sent) ∧
    (∀ m, (sms_eval_alert send1 T s).sent = [m] →
      (sms_eval_alert send1 T s).ret = send1 m ∧
      (sms_eval_alert send1 T s).sent.length = 1 ∧
      ((m = AlertMsg.coldWarning ∨ m = AlertMsg.hotWarning) →
        (sms_eval_alert send1 T s).state.a_tick = true ∧
        (sms_eval_alert send1 T s).armed = [(TimerId.A, THIRTY_MIN_US)]) ∧
      ((m = AlertMsg.coldAlert ∨ m = AlertMsg.hotAlert) →
        (sms_eval_alert send1 T s).state.b_tick = true ∧
        (sms_eval_alert send1 T s).armed = [(TimerId.B, ONE_HOUR_US)])) := by
  simp only [sms_eval_alert]
  split_ifs <;> refine ⟨⟨rfl, rfl, rfl⟩, ?_⟩ <;> rintro m hm <;>
    first
      | (injection hm with h1 h2; subst h1; simp)
      | exact absurd hm (by simp)

/-- C3 witness: with a transport that fails with -1, the cold alert at
10 °C surfaces -1 to the caller. -/
theorem sms_eval_alert_send_failure_cooldown_witness :
    (sms_eval_alert (fun _ => -1) 10 initState).ret = -1 :=
  ((sms_eval_alert_send_failure_cooldown (fun _ => -1) (fun _ => 0) 10
      initState).2 AlertMsg.coldAlert
    (by norm_num [sms_eval_alert, initState, ALERT_LOW_C, WARN_LOW_C])).1

/-- C4: a firing warning branch leaves the alert gate and its timer
untouched and a firing alert branch leaves the warn gate and its timer
untouched; concretely, a cold-warning fired at 16 °C from the initial
state does not suppress a hot-alert at 31 °C in the next cycle. -/
theorem sms_eval_alert_gate_independence (send : AlertMsg → Int)
    (T : ℚ) (s : AlertState) :
    (∀ m, (sms_eval_alert send T s).sent = [m] →
      ((m = AlertMsg.coldWarning ∨ m = AlertMsg.hotWarning) →
        (sms_eval_alert send T s).state.b_tick = s.b_tick ∧
        (sms_eval_alert send T s).state.b_running = s.b_running) ∧
      ((m = AlertMsg.coldAlert ∨ m = AlertMsg.hotAlert) →
        (sms_eval_alert send T s).state.a_tick = s.a_tick ∧
        (sms_eval_alert send T s).state.a_running = s.a_running)) ∧
    (sms_eval_alert send 16 initState).sent = [AlertMsg.coldWarning] ∧
    (sms_eval_alert send 31
        (sms_eval_alert send 16 initState).state).sent =
      [AlertMsg.hotAlert] := by
  refine ⟨?_, ?_, ?_⟩
  case refine_2 =>
    norm_num [sms_eval_alert, initState, ALERT_LOW_C, WARN_LOW_C]
  case refine_3 =>
    norm_num [sms_eval_alert, initState, ALERT_LOW_C, WARN_LOW_C,
      WARN_HIGH_C, ALERT_HIGH_C]
  simp only [sms_eval_alert]
  split_ifs <;> rintro m hm <;>
    first
      | (injection hm with h1 h2; subst h1; simp)
      | exact absurd hm (by simp)

/-- C4 witness: the cold alert at 10 °C leaves the warn gate as it
was. -/
theorem sms_eval_alert_gate_independence_witness :
    (sms_eval_alert (fun _ => 0) 10 initState).state.a_tick =
      initState.a_tick :=
  (((sms_eval_alert_gate_independence (fun _ => 0) 10 initState).1
      AlertMsg.coldAlert
      (by norm_num [sms_eval_alert, initState, ALERT_LOW_C, WARN_LOW_C])).2
    (Or.inl rfl)).1

/-- One step of the evaluator/timer system preserves the gate/timer
coupling invariant. -/
lemma gateInv_step (s : AlertState) (e : SysEvent) (h : GateInv s) :
    GateInv (stepEvent s e) := by
  obtain ⟨ha, hb⟩ := h
  cases e with
  | evalCall send T =>
      simp only [stepEvent, sms_eval_alert]
      split_ifs <;> exact ⟨by simp_all, by simp_all⟩
  | timerAExpire =>
      simp only [stepEvent, callback_timer_A]
      split_ifs <;> exact ⟨by simp_all, by simp_all⟩
  | timerBExpire =>
      simp only [stepEvent, callback_timer_B]
      split_ifs <;> exact ⟨by simp_all, by simp_all⟩

/-- The gate/timer coupling invariant holds along any run. -/
lemma gateInv_foldl (evs : List SysEvent) (s : AlertState)
    (h : GateInv s) : GateInv (evs.foldl stepEvent s) := by
  induction evs generalizing s with
  | nil => exact h
  | cons e tl ih => exact ih _ (gateInv_step s e h)

/-- C10: in every state reachable from the initial state (gates open,
timers inactive) by evaluation calls and timer expiries, each gate is
closed exactly when its timer is counting down; consequently any
evaluation call from a reachable state only ever starts a timer that
is not already running. -/
theorem gate_timer_coupling_invariant (evs : List SysEvent) :
    GateInv (runEvents evs) ∧
    ∀ send T,
      (sms_eval_alert send T (runEvents evs)).startedWhileRunning =
        false := by
  have hinv : GateInv (runEvents evs) :=
    gateInv_foldl evs initState ⟨rfl, rfl⟩
  refine ⟨hinv, fun send T => ?_⟩
  obtain ⟨ha, hb⟩ := hinv
  simp only [sms_eval_alert]
  split_ifs <;> simp_all

/-- C2: `BME280_compensate_T_double` returns the sum of the two
polynomial terms over `dig_T1..T3` divided by 5120 as degrees Celsius,
and carries forward as fine temperature the integer truncation of the
un-divided sum, which differs from that sum by less than one. -/
theorem compensate_T_celsius_and_fine (c : bme280_calib_t)
    (adc_T : ℤ) :
    (BME280_compensate_T_double c adc_T).1 = tempTerms c adc_T / 5120 ∧
    (BME280_compensate_T_double c adc_T).2 =
      truncToInt (tempTerms c adc_T) ∧
    |tempTerms c adc_T - ((BME280_compensate_T_double c adc_T).2 : ℚ)| <
      1 := by
  refine ⟨rfl, rfl, ?_⟩
  exact abs_sub_truncToInt (tempTerms c adc_T)

/-- C6: for every calibration set, fine temperature (including 0) and
raw humidity sample, the compensated humidity lies in [0, 100]. -/
theorem compensate_H_clamped (c : bme280_calib_t) (t_fine adc_H : ℤ) :
    0 ≤ bme280_compensate_H_double c t_fine adc_H ∧
    bme280_compensate_H_double c t_fine adc_H ≤ 100 := by
  simp only [bme280_compensate_H_double]
  split_ifs with h1 h2
  · norm_num
  · norm_num
  · exact ⟨le_of_not_lt h2, le_of_not_gt h1⟩

/-- C7: pressure compensation never divides by zero — when the
computed denominator term is exactly zero it returns the degenerate
output 0, and otherwise it returns the nested-polynomial pressure
built from that denominator. -/
theorem compensate_P_div_zero_guard (c : bme280_calib_t)
    (t_fine adc_P : ℤ) :
    (pressureDenom c t_fine = 0 →
      BME280_compensate_P_double c t_fine adc_P = 0) ∧
    (pressureDenom c t_fine ≠ 0 →
      BME280_compensate_P_double c t_fine adc_P =
        (let p : ℚ :=
          ((1048576 - (adc_P : ℚ)) - pressureVar2 c t_fine / 4096) * 6250 /
            pressureDenom c t_fine
         p + ((c.dig_P9 : ℚ) * p * p / 2147483648 +
              p * (c.dig_P8 : ℚ) / 32768 + (c.dig_P7 : ℚ)) / 16)) := by
  constructor
  · intro h
    simp only [BME280_compensate_P_double]
    rw [if_pos]
    exact h
  · intro h
    simp only [BME280_compensate_P_double]
    rw [if_neg]
    · rfl
    · exact h

/-- C7 witness: with `dig_P1 = 0` the denominator is zero and the
result is the defined degenerate output 0. -/
theorem compensate_P_div_zero_guard_witness :
    BME280_compensate_P_double
      { dig_T1 := 0, dig_T2 := 0, dig_T3 := 0, dig_P1 := 0, dig_P2 := 0,
        dig_P3 := 0, dig_P4 := 0, dig_P5 := 0, dig_P6 := 0, dig_P7 := 0,
        dig_P8 := 0, dig_P9 := 0, dig_H1 := 0, dig_H2 := 0, dig_H3 := 0,
        dig_H4 := 0, dig_H5 := 0, dig_H6 := 0 } 0 0 = 0 :=
  (compensate_P_div_zero_guard _ 0 0).1 (by norm_num [pressureDenom])

/-- Range of `sign_extend_12` on 12-bit inputs, checked exhaustively
with the input split into its high and low six bits. -/
lemma sign_extend_12_range_aux : ∀ hi < 64, ∀ lo < 64,
    -2048 ≤ sign_extend_12 (64 * hi + lo) ∧
      sign_extend_12 (64 * hi + lo) ≤ 2047 := by
  set_option maxRecDepth 10000 in decide

/-- Round-trip of `sign_extend_12` against the 12-bit two's-complement
encoding, checked exhaustively with the input split into its high and
low six bits. -/
lemma sign_extend_12_roundtrip_aux : ∀ hi < 64, ∀ lo < 64,
    sign_extend_12 (Int.toNat (((64 * hi + lo : ℕ) - 2048 : ℤ) % 4096)) =
      (64 * hi + lo : ℕ) - 2048 := by
  set_option maxRecDepth 10000 in decide

/-- C5: `sign_extend_12` maps every packed 12-bit input into
[-2048, 2047]; encoding a signed value of that range as a 12-bit
two's-complement pattern and sign-extending reproduces it; and the
packed humidity coefficients `dig_H4` / `dig_H5` are reconstructed
from the bytes at offsets 3..5 of the second calibration block as
`(byte[n] << 4) | (byte[n+1] & 0x0F)` and
`(byte[n+2] << 4) | (byte[n+1] >> 4)` before sign extension. -/
theorem sign_extend_12_range_roundtrip :
    (∀ v < 4096, -2048 ≤ sign_extend_12 v ∧ sign_extend_12 v ≤ 2047) ∧
    (∀ s : ℤ, -2048 ≤ s → s ≤ 2047 →
      sign_extend_12 (Int.toNat (s % 4096)) = s) ∧
    (∀ buf1 buf2,
      (bme280_read_calibration buf1 buf2).dig_H4 =
        sign_extend_12 (((buf2 3) <<< 4) ||| ((buf2 4) &&& 0x0F)) ∧
      (bme280_read_calibration buf1 buf2).dig_H5 =
        sign_extend_12 (((buf2 5) <<< 4) ||| ((buf2 4) >>> 4))) := by
  refine ⟨?_, ?_, fun buf1 buf2 => ⟨rfl, rfl⟩⟩
  · intro v hv
    have h := sign_extend_12_range_aux (v / 64) (by omega) (v % 64)
      (by omega)
    have hd : 64 * (v / 64) + v % 64 = v := by omega
    rwa [hd] at h
  · intro s hlo hhi
    have hv : (Int.toNat (s + 2048)) < 4096 := by omega
    set v := Int.toNat (s + 2048) with hvdef
    have h := sign_extend_12_roundtrip_aux (v / 64) (by omega) (v % 64)
      (by omega)
    have hd : 64 * (v / 64) + v % 64 = v := by omega
    rw [hd] at h
    have hs : (v : ℤ) - 2048 = s := by omega
    rwa [hs] at h

/-- C5 witness: the pattern of -1 (all twelve bits set) decodes back
to -1. -/
theorem sign_extend_12_range_roundtrip_witness :
    sign_extend_12 (Int.toNat ((-1) % 4096)) = -1 :=
  sign_extend_12_range_roundtrip.2.1 (-1) (by norm_num) (by norm_num)

/-- C8: the calibration-ready wait terminates for every status
sequence in which bit 0 eventually reads clear, and runs forever (no
fuel suffices) when every status read has bit 0 set. -/
theorem bme280_init_poll_termination :
    (∀ status : ℕ → ℕ, (∃ i, status i &&& 0x01 = 0) →
      ∃ fuel n, bme280_wait_calib status fuel = some n) ∧
    (∀ status : ℕ → ℕ, (∀ i, status i &&& 0x01 ≠ 0) →
      ∀ fuel, bme280_wait_calib status fuel = none) := by
  constructor
  · rintro status ⟨i, hi⟩
    suffices h : ∀ k j, status (j + k) &&& 0x01 = 0 →
        ∃ fuel n, pollLoop status fuel j = some n by
      obtain ⟨fuel, n, hf⟩ := h i 0 (by simpa using hi)
      exact ⟨fuel, n, hf⟩
    intro k
    induction k with
    | zero =>
        intro j hj
        rw [Nat.add_zero] at hj
        exact ⟨1, j, by simp only [pollLoop]; rw [if_pos hj]⟩
    | succ k ih =>
        intro j hj
        by_cases h0 : status j &&& 0x01 = 0
        · exact ⟨1, j, by simp only [pollLoop]; rw [if_pos h0]⟩
        · obtain ⟨fuel, n, hf⟩ := ih (j + 1) (by
            have harr : j + 1 + k = j + (k + 1) := by omega
            rw [harr]
            exact hj)
          exact ⟨fuel + 1, n, by
            simp only [pollLoop]
            rw [if_neg h0]
            exact hf⟩
  · intro status h fuel
    suffices hs : ∀ fuel i, pollLoop status fuel i = none from hs fuel 0
    intro fuel
    induction fuel with
    | zero => intro i; rfl
    | succ fuel ih =>
        intro i
        simp only [pollLoop]
        rw [if_neg (h i)]
        exact ih (i + 1)

/-- C8 witness: a status sequence whose bit 0 clears at read 2
terminates, and the all-ones status sequence never does. -/
theorem bme280_init_poll_termination_witness :
    (∃ fuel n,
      bme280_wait_calib (fun i => if i < 2 then 1 else 0) fuel = some n) ∧
    (∀ fuel, bme280_wait_calib (fun _ => 1) fuel = none) :=
  ⟨bme280_init_poll_termination.1 _ ⟨2, by decide⟩,
   bme280_init_poll_termination.2 _ (fun i => by decide)⟩

/-- `readOps` distributes over command-list concatenation. -/
lemma readOps_append (l1 l2 : List I2COp) :
    readOps (l1 ++ l2) = readOps l1 ++ readOps l2 :=
  List.filterMap_append l1 l2 _

/-- The read operations of a block of queued reads. -/
lemma readOps_map_readByte (l : List ℕ) (b : Bool) :
    readOps (l.map fun i => I2COp.readByte (i : ℤ) b) =
      l.map fun i => ((i : ℤ), b) := by
  induction l with
  | nil => rfl
  | cons x tl ih => exact congrArg (List.cons ((x : ℤ), b)) ih

/-- C9: for `len ≥ 1` the burst read acknowledges each of the first
`len - 1` bytes, stored at buffer indices `0..len-2`, and
not-acknowledges the last byte, stored at index `len - 1`; for
`len = 0` the single queued read targets index -1, one element before
the buffer, so `len ≥ 1` is a required precondition. -/
theorem i2c_read_bytes_ack_nack (d r : ℕ) (len : ℕ) :
    (1 ≤ len →
      readOps (i2c_read_bytes_ops d r len) =
        ((List.range (len - 1)).map fun i => ((i : ℤ), true)) ++
          [((len : ℤ) - 1, false)]) ∧
    readOps (i2c_read_bytes_ops d r 0) = [(-1, false)] := by
  constructor
  · intro h
    rcases Nat.lt_or_ge 1 len with hl | hl
    · simp only [i2c_read_bytes_ops, if_pos hl]
      rw [readOps_append, readOps_append, readOps_map_readByte]
      rfl
    · have hlen : len = 1 := le_antisymm hl h
      subst hlen
      rfl
  · rfl

/-- C9 witness: a 3-byte read at device 0x76, register 0xF7 queues two
acknowledged reads into indices 0 and 1 and one not-acknowledged read
into index 2. -/
theorem i2c_read_bytes_ack_nack_witness :
    readOps (i2c_read_bytes_ops 118 247 3) =
      [((0 : ℤ), true), (1, true), (2, false)] := by
  rw [(i2c_read_bytes_ack_nack 118 247 3).1 (by norm_num)]
  decide

end ESP32Monitor
